import Mathlib

/-!
Verification of the SidecarTridge multi-device RTC emulator core
(`src/rp/src/emul.c`, header `rtc.h`).

The C sources are shallowly embedded: machine integers become `Nat` with
explicit `% 2^w` truncations at the points where the C code stores into a
narrower type, pointers into the shared-memory region become fields of a
`SharedMem` record, and the static module state of `emul.c` becomes an
explicit `RtcState` record threaded through the functions.
-/

namespace RtcEmul

/-! ## Datetime codec (`to_bcd`, `add_bcd` from emul.c) -/

/-- `to_bcd` from emul.c: `((val / 10) << 4) | (val % 10)` on `uint8_t`.
The argument and the result are truncated to a byte exactly as the C
parameter passing and return do. -/
def to_bcd (val : Nat) : Nat :=
  ((((val % 256) / 10) <<< 4) ||| ((val % 256) % 10)) % 256

/-- `add_bcd` from emul.c.  All four mutable locals are `uint8_t` in the
source, so every assignment truncates mod 256; in particular the initial
`high_nibble` sum `(bcd1 & 0xF0) + (bcd2 & 0xF0)` is truncated before the
`(high_nibble & 0x1F0) > 0x90` test runs. -/
def add_bcd (bcd1 bcd2 : Nat) : Nat :=
  let b1 := bcd1 % 256
  let b2 := bcd2 % 256
  let low0 := ((b1 &&& 0x0F) + (b2 &&& 0x0F)) % 256
  let high0 := ((b1 &&& 0xF0) + (b2 &&& 0xF0)) % 256
  let low1 := if low0 > 9 then (low0 + 6) % 256 else low0
  let high1 := (high0 + (low1 &&& 0xF0)) % 256
  let low2 := low1 &&& 0x0F
  let high2 := if (high1 &&& 0x1F0) > 0x90 then (high1 + 0x60) % 256 else high1
  (high2 &&& 0xF0) ||| (low2 &&& 0x0F)

example : to_bcd 5 = 0x05 := by decide
example : to_bcd 70 = 0x70 := by decide
example : add_bcd 0x05 0x70 = 0x75 := by decide
example : add_bcd 0x99 0x99 = 0x38 := by decide

/-- C8: the claim says `add_bcd` is correct BCD addition mod 100 for all
valid BCD operands.  The code truncates the high-nibble sum to `uint8_t`,
so for `0x90 + 0x90` (decimal 90 + 90, both operands valid BCD) it returns
`0x20` while correct BCD addition mod 100 yields `to_bcd 80 = 0x80`: the
`& 0x1F0` overflow test in the source can never see bit 8 of the sum. -/
theorem add_bcd_uint8_truncation_bug :
    add_bcd 0x90 0x90 = 0x20 ∧ (90 + 90) % 100 = 80 ∧ to_bcd 80 = 0x80 ∧
      add_bcd 0x90 0x90 ≠ to_bcd ((90 + 90) % 100) := by
  decide

/-! ## Command codes and shared-variable indices (rtc.h) -/

/-- `APP_RTCEMUL` (rtc.h): application code of the RTC emulator. -/
def APP_RTCEMUL : Nat := 0x03

/-- `RTCEMUL_READ_TIME` (rtc.h): `APP_RTCEMUL << 8 | 1`. -/
def RTCEMUL_READ_TIME : Nat := (APP_RTCEMUL <<< 8) ||| 1

/-- `RTCEMUL_SAVE_VECTORS` (rtc.h): `APP_RTCEMUL << 8 | 2`. -/
def RTCEMUL_SAVE_VECTORS : Nat := (APP_RTCEMUL <<< 8) ||| 2

/-- `RTCEMUL_REENTRY_LOCK` (rtc.h): `APP_RTCEMUL << 8 | 3`. -/
def RTCEMUL_REENTRY_LOCK : Nat := (APP_RTCEMUL <<< 8) ||| 3

/-- `RTCEMUL_REENTRY_UNLOCK` (rtc.h): `APP_RTCEMUL << 8 | 4`. -/
def RTCEMUL_REENTRY_UNLOCK : Nat := (APP_RTCEMUL <<< 8) ||| 4

/-- `RTCEMUL_SET_SHARED_VAR` (rtc.h): `APP_RTCEMUL << 8 | 5`. -/
def RTCEMUL_SET_SHARED_VAR : Nat := (APP_RTCEMUL <<< 8) ||| 5

/-- `SHARED_VARIABLE_SVERSION` (rtc.h). -/
def SHARED_VARIABLE_SVERSION : Nat := 1

/-- `NTP_DEFAULT_PORT` (rtc.h). -/
def NTP_DEFAULT_PORT : Nat := 123

/-- `NTP_DELTA` (rtc.h): seconds between 1 Jan 1900 and 1 Jan 1970. -/
def NTP_DELTA : Nat := 2208988800

/-- `NTP_MSG_LEN` (rtc.h). -/
def NTP_MSG_LEN : Nat := 48

/-! ## Wire protocol data model

The `TransmissionProtocol` struct of tprotocol.h: an 8-byte header
`{command_id, payload_size, bytes_read, final_checksum : u16}` followed by
a payload buffer.  The payload is modelled as a list of bytes. -/

structure TransmissionProtocol where
  command_id : Nat
  payload_size : Nat
  bytes_read : Nat
  final_checksum : Nat
  payload : List Nat
deriving DecidableEq, Repr

/-- Modelled from the spec: `TPROTO_GET_RANDOM_TOKEN` of the missing
tprotocol.h reads the 32-bit random token stored in the first 4 payload
bytes of a command frame ("the first 4 payload bytes are always the
current random token"). -/
def tproto_getRandomToken (payload : List Nat) : Nat :=
  ((payload.getD 0 0 % 256) <<< 24) ||| ((payload.getD 1 0 % 256) <<< 16) |||
    ((payload.getD 2 0 % 256) <<< 8) ||| (payload.getD 3 0 % 256)

/-- Modelled from the spec: `TPROTO_GET_PAYLOAD_PARAM32` of the missing
tprotocol.h reads a 32-bit parameter from the payload at byte offset
`off`; rtc_loop reads the first parameter at offset 4 (after the token)
and the second at offset 8. -/
def tproto_getParam32 (payload : List Nat) (off : Nat) : Nat :=
  ((payload.getD off 0 % 256) <<< 24) ||| ((payload.getD (off + 1) 0 % 256) <<< 16) |||
    ((payload.getD (off + 2) 0 % 256) <<< 8) ||| (payload.getD (off + 3) 0 % 256)

/-! ## Shared memory layout

The fields of the shared-memory region written through the
`RTCEMUL_*` offsets of rtc.h (random token, token seed, NTP success
flag, the 8-byte IKBD BCD datetime record, the packed MSDOS datetime,
the saved XBIOS trap, the reentry trap, the Y2K patch flag and the
shared-variable slots). -/

structure Bcd8 where
  b0 : Nat
  b1 : Nat
  b2 : Nat
  b3 : Nat
  b4 : Nat
  b5 : Nat
  b6 : Nat
  b7 : Nat
deriving DecidableEq, Repr

structure SharedMem where
  randomToken : Nat
  randomTokenSeed : Nat
  ntpSuccess : Nat
  datetimeBcd : Bcd8
  datetimeMsdos : Nat
  oldXbiosTrap : Nat
  reentryTrap : Nat
  y2kPatch : Nat
  sharedVariables : Nat → Nat

/-- The `datetime_t` of the RP2040 SDK as filled by this firmware. -/
structure ClockTime where
  year : Nat
  month : Nat
  day : Nat
  hour : Nat
  min : Nat
  sec : Nat
  dotw : Nat
deriving DecidableEq, Repr

/-- The static module state of emul.c used by the RTC command engine:
the single-slot staging buffer `lastProtocol`, its ready flag
`lastProtocolValid`, the shared-memory region, the
`memoryRandomTokenAddress` base (0 until `rtc_preinit` runs), the cached
`y2kPatchEnabled` configuration and the internal RTC time `rtcTime`. -/
structure RtcState where
  lastProtocol : TransmissionProtocol
  lastProtocolValid : Bool
  shared : SharedMem
  memoryRandomTokenAddress : Nat
  y2kPatchEnabled : Bool
  rtcTime : ClockTime

/-! ## Datetime message writer (`set_ikb_datetime_msg` from emul.c) -/

/-- The `uint16_t msdos_date` computation of `set_ikb_datetime_msg`:
`((rtcTime.year - 1980) << 9) | (rtcTime.month << 5) | (rtcTime.day)`.
The subtraction and shift run in 32-bit `int` (two's complement, hence
the `emod 2^32`), and the result is truncated to `uint16_t`. -/
def msdosDate (t : ClockTime) : Nat :=
  (((((t.year : Int) - 1980) * 512).emod 4294967296).toNat |||
    (t.month <<< 5) ||| t.day) % 65536

/-- The `uint16_t msdos_time` computation of `set_ikb_datetime_msg`:
`(rtcTime.hour << 11) | (rtcTime.min << 5) | (rtcTime.sec / 2)`. -/
def msdosTime (t : ClockTime) : Nat :=
  ((t.hour <<< 11) ||| (t.min <<< 5) ||| (t.sec / 2)) % 65536

/-- `set_ikb_datetime_msg` from emul.c as a function of the shared
memory, the internal RTC time (the C function re-reads the hardware RTC
into the static `rtcTime`; the hardware clock and the static mirror hold
the same value), the `uint16_t gemdos_version` parameter and the
`bool y2k_patch` parameter.  Byte writes through `rtc_time_ptr` become
the eight `Bcd8` fields; note the C `gemdos_version >= 0` test is on an
unsigned parameter, rendered here as the (always true) `Int` comparison. -/
def set_ikb_datetime_msg (sh : SharedMem) (t : ClockTime)
    (gemdos_version : Nat) (y2k_patch : Bool) : SharedMem :=
  let yearFix := 0 ≤ (gemdos_version : Int) ∧ y2k_patch = true
  let b0 := if yearFix then
      add_bcd (to_bcd (t.year % 100)) (to_bcd ((2000 - 1980) + (80 - 30)))
    else to_bcd (t.year % 100)
  let y2kField := if yearFix then sh.y2kPatch else 0
  { sh with
    datetimeBcd :=
      { b0 := b0, b1 := 0x1b, b2 := to_bcd t.day, b3 := to_bcd t.month,
        b4 := to_bcd t.min, b5 := to_bcd t.hour, b6 := 0x0, b7 := to_bcd t.sec },
    y2kPatch := y2kField,
    datetimeMsdos := ((msdosDate t <<< 16) ||| msdosTime t) % 4294967296 }

/-! ## RTC command engine (`rtc_loop` from emul.c) -/

/-- The body of `rtc_loop` up to (and excluding) the final
`lastProtocolValid = false;` statement: when a frame is staged, read the
random token from the first 4 payload bytes, dispatch on `command_id`
(the `switch`), and then, if `memoryRandomTokenAddress` is set, write the
frame's token back to the RandomToken field and a fresh `rand()` value
(the `randVal` argument) to the RandomTokenSeed field. -/
def rtc_loop_process (randVal : Nat) (s : RtcState) : RtcState :=
  if s.lastProtocolValid = true then
    let randomToken := tproto_getRandomToken s.lastProtocol.payload
    let s1 :=
      if s.lastProtocol.command_id = RTCEMUL_READ_TIME then
        let gemdos_version := s.shared.sharedVariables SHARED_VARIABLE_SVERSION
        { s with shared := (set_ikb_datetime_msg s.shared s.rtcTime
            (gemdos_version % 65536) s.y2kPatchEnabled) }
      else if s.lastProtocol.command_id = RTCEMUL_SAVE_VECTORS then
        { s with shared := { s.shared with
            oldXbiosTrap := tproto_getParam32 s.lastProtocol.payload 4 } }
      else if s.lastProtocol.command_id = RTCEMUL_REENTRY_LOCK then
        { s with shared := { s.shared with reentryTrap := 0xFFFFFFFF } }
      else if s.lastProtocol.command_id = RTCEMUL_REENTRY_UNLOCK then
        { s with shared := { s.shared with reentryTrap := 0x0 } }
      else if s.lastProtocol.command_id = RTCEMUL_SET_SHARED_VAR then
        let sharedVarIdx := tproto_getParam32 s.lastProtocol.payload 4
        let sharedVarValue := tproto_getParam32 s.lastProtocol.payload 8
        { s with shared := { s.shared with
            sharedVariables :=
              Function.update s.shared.sharedVariables sharedVarIdx sharedVarValue } }
      else s
    if s.memoryRandomTokenAddress ≠ 0 then
      { s1 with shared := { s1.shared with
          randomToken := randomToken, randomTokenSeed := randVal } }
    else s1
  else s

/-- `rtc_loop` from emul.c: the staged-frame processing followed by the
unconditional `lastProtocolValid = false;` at the end of the function. -/
def rtc_loop (randVal : Nat) (s : RtcState) : RtcState :=
  { rtc_loop_process randVal s with lastProtocolValid := false }

/-! ## Protocol staging callbacks (emul.c) and the parse dispatch -/

/-- `handle_protocol_command` from emul.c, parametrised by the
`MAX_PROTOCOL_PAYLOAD_SIZE` capacity of the staging buffer (a constant of
the missing tprotocol.h): the 8-byte header is copied verbatim, the copy
length is the payload size clamped to the capacity, and `memcpy` copies
that many payload bytes into the staging buffer (bytes beyond the copy
keep their previous staged content), then the ready flag is raised. -/
def clampedSize (maxPayload : Nat) (p : TransmissionProtocol) : Nat :=
  if p.payload_size > maxPayload then maxPayload else p.payload_size

def handle_protocol_command (maxPayload : Nat) (p : TransmissionProtocol)
    (s : RtcState) : RtcState :=
  let size := clampedSize maxPayload p
  { s with
    lastProtocol :=
      { command_id := p.command_id, payload_size := p.payload_size,
        bytes_read := p.bytes_read, final_checksum := p.final_checksum,
        payload := p.payload.take size ++ s.lastProtocol.payload.drop size },
    lastProtocolValid := true }

/-- `handle_protocol_checksum_error` from emul.c: the body is a single
`DPRINTF`, so the module state is returned unchanged. -/
def handle_protocol_checksum_error (_p : TransmissionProtocol)
    (s : RtcState) : RtcState :=
  s

/-- Modelled from the spec: `tprotocol_parse` of the missing tprotocol.h
validates the checksum of the decoded frame against a function of the
header and payload (`chk`, kept abstract) and invokes
`handle_protocol_command` on success and `handle_protocol_checksum_error`
on mismatch. -/
def tprotocol_parse (chk : TransmissionProtocol → Nat) (maxPayload : Nat)
    (p : TransmissionProtocol) (s : RtcState) : RtcState :=
  if p.final_checksum = chk p then handle_protocol_command maxPayload p s
  else handle_protocol_checksum_error p s

/-! ## NTP synchronizer (`hostFoundCB`, `ntpRecvCB`, `rtc_queryNTPTime`) -/

/-- The `NTP_TIME` struct of rtc.h (IP addresses are modelled as `Nat`;
the udp pcb pointer carries no observable state). -/
structure NtpTimeState where
  ntp_ipaddr : Nat
  ntp_server_found : Bool
  ntp_error : Bool
deriving DecidableEq, Repr

/-- `struct tm` as produced by `gmtime`. -/
structure Tm where
  tm_year : Nat
  tm_mon : Nat
  tm_mday : Nat
  tm_hour : Nat
  tm_min : Nat
  tm_sec : Nat
  tm_wday : Nat
deriving DecidableEq, Repr

/-- An incoming UDP datagram (`struct pbuf`): total length and byte
accessors (`pbuf_get_at` / `pbuf_copy_partial`). -/
structure NtpPacket where
  tot_len : Nat
  bytes : Nat → Nat

/-- The static state read and written by the NTP acquisition code of
emul.c: `netTime`, `rtcTime` (the internal hardware RTC and its static
mirror hold the same value), the local `dns_query_done` flag of
`rtc_queryNTPTime`, and the configured server port and UTC offset. -/
structure QueryState where
  netTime : NtpTimeState
  rtcTime : ClockTime
  dnsQueryDone : Bool
  ntpServerPort : Nat
  utcOffsetSeconds : Int
deriving DecidableEq, Repr

/-- `hostFoundCB` from emul.c.  `nameNull` models `name == NULL`; the
`arg` parameter is always `&netTime` (non-null) in this program. -/
def hostFoundCB (st : QueryState) (nameNull : Bool) (ip : Option Nat) : QueryState :=
  if nameNull = true then st
  else
    match ip with
    | some a =>
      if st.netTime.ntp_server_found = false then
        { st with netTime := { st.netTime with ntp_server_found := true, ntp_ipaddr := a } }
      else st
    | none => { st with netTime := { st.netTime with ntp_error := true } }

/-- The 32-bit transmit timestamp at byte offset 40, read with
`pbuf_copy_partial` and converted with `lwip_ntohl` (network byte order
is big-endian). -/
def transmitTimestamp (pkt : NtpPacket) : Nat :=
  ((pkt.bytes 40 % 256) <<< 24) ||| ((pkt.bytes 41 % 256) <<< 16) |||
    ((pkt.bytes 42 % 256) <<< 8) ||| (pkt.bytes 43 % 256)

/-- `ntpRecvCB` from emul.c, parametrised by the C library `gmtime`
(which may return NULL).  The callback discards the datagram unless the
length is exactly `NTP_MSG_LEN`, the source address equals the resolved
server address, the source port equals `NTP_DEFAULT_PORT`, the mode field
is 4 and the stratum is nonzero; on acceptance it converts the transmit
timestamp (the `uint32_t` arithmetic wraps mod 2^32) and commits the
calendar fields to `rtcTime` / the hardware RTC. -/
def ntpRecvCB (gmtime : Nat → Option Tm) (st : QueryState)
    (p : Option NtpPacket) (addr port : Nat) : QueryState :=
  match p with
  | none => st
  | some pkt =>
    if pkt.tot_len ≠ NTP_MSG_LEN then st
    else if ¬(addr = st.netTime.ntp_ipaddr) ∨ port ≠ NTP_DEFAULT_PORT then st
    else
      let mode := pkt.bytes 0 &&& 0x07
      let stratum := pkt.bytes 1
      if mode ≠ 4 ∨ stratum = 0 then st
      else
        let secs := (((transmitTimestamp pkt : Int) - (NTP_DELTA : Int) +
          st.utcOffsetSeconds).emod 4294967296).toNat
        match gmtime secs with
        | none => st
        | some utc =>
          { st with rtcTime :=
              { year := utc.tm_year + 1900, month := utc.tm_mon + 1,
                day := utc.tm_mday, hour := utc.tm_hour, min := utc.tm_min,
                sec := utc.tm_sec, dotw := utc.tm_wday } }

/-- A network callback delivered while polling: a DNS resolution result
(`hostFoundCB`) or an incoming UDP datagram (`ntpRecvCB`). -/
inductive NetEvent where
  | hostFound (nameNull : Bool) (ip : Option Nat)
  | recv (p : Option NtpPacket) (addr : Nat) (port : Nat)

/-- `NetEvent.isHostFound e` holds when `e` is a DNS resolution callback
(no NTP datagram is delivered). -/
def NetEvent.isHostFound : NetEvent → Bool
  | .hostFound _ _ => true
  | .recv _ _ _ => false

/-- Deliver one callback to the NTP state. -/
def applyNetEvent (gmtime : Nat → Option Tm) (st : QueryState) : NetEvent → QueryState
  | .hostFound nameNull ip => hostFoundCB st nameNull ip
  | .recv p addr port => ntpRecvCB gmtime st p addr port

/-- One pass of the `while` loop of `rtc_queryNTPTime`: the poll/sleep
step delivers the callbacks of `it.1`; if the server was found after a
completed DNS query the found flag is cleared and the request is sent
(`set_internal_rtc` changes no modelled state); if the DNS query has not
been issued, `dns_gethostbyname` is called (its callbacks are `it.2`) and
the done flag raised; a pending DNS error resets the three flags so DNS
is retried. -/
def ntpIter (gmtime : Nat → Option Tm) (it : List NetEvent × List NetEvent)
    (st : QueryState) : QueryState :=
  let st1 := it.1.foldl (applyNetEvent gmtime) st
  let st2 :=
    if st1.netTime.ntp_server_found = true ∧ st1.dnsQueryDone = true then
      { st1 with netTime := { st1.netTime with ntp_server_found := false } }
    else st1
  let st3 :=
    if st2.dnsQueryDone = false then
      { (it.2.foldl (applyNetEvent gmtime) st2) with dnsQueryDone := true }
    else st2
  if st3.netTime.ntp_error = true then
    { st3 with
      dnsQueryDone := false,
      netTime := { st3.netTime with ntp_error := false, ntp_server_found := false } }
  else st3

/-- The polling loop of `rtc_queryNTPTime`: `iters` enumerates the
~200 ms polling slots inside the 5-second deadline (the list ends when
the deadline elapses); the loop also exits as soon as `rtcTime.year`
becomes nonzero. -/
def ntpLoop (gmtime : Nat → Option Tm) :
    List (List NetEvent × List NetEvent) → QueryState → QueryState
  | [], st => st
  | it :: rest, st =>
    if st.rtcTime.year = 0 then ntpLoop gmtime rest (ntpIter gmtime it st) else st

/-- The entry steps of `rtc_queryNTPTime`: `ntp_init` clears the found
and error flags, the found flag is cleared again, and the local
`dns_query_done` starts false. -/
def ntpQueryInit (st0 : QueryState) : QueryState :=
  { st0 with
    netTime := { st0.netTime with ntp_server_found := false, ntp_error := false },
    dnsQueryDone := false }

/-- `rtc_queryNTPTime` from emul.c: after the init steps the polling
loop runs until the deadline or until the year field is set; the
function returns 0 on success and -1 on timeout. -/
def rtc_queryNTPTime (gmtime : Nat → Option Tm)
    (iters : List (List NetEvent × List NetEvent)) (st0 : QueryState) :
    Int × QueryState :=
  let stF := ntpLoop gmtime iters (ntpQueryInit st0)
  if stF.rtcTime.year ≠ 0 then (0, stF) else (-1, stF)

/-! ## Dallas emulator (`populateMagicSequence`, `rtc_postinit`) -/

/-- The `DallasClock` struct of rtc.h. -/
structure DallasClock where
  last_magic_found : Nat
  retries : Nat
  magic_sequence_hex : Nat
  clock_sequence : Fin 64 → Nat
  read_address_bit : Nat
  write_address_bit_zero : Nat
  write_address_bit_one : Nat
  magic_sequence : Fin 66 → Nat
  size_magic_sequence : Nat
  size_clock_sequence : Nat
  rom_address : Nat

/-- `populateMagicSequence` from emul.c: the loop writes elements 2..65
from the bits of `hex_value`, encoding bit `i - 2` with the clock's
write-one / write-zero signal values and leaving elements 0 and 1
untouched. -/
def populateMagicSequence (c : DallasClock) (hex_value : Nat) : DallasClock :=
  { c with magic_sequence := fun i =>
      if 2 ≤ i.val then
        if (hex_value >>> (i.val - 2)) &&& 1 = 1 then c.write_address_bit_one
        else c.write_address_bit_zero
      else c.magic_sequence i }

/-- The `RTC_DALLAS` branch of `rtc_postinit` from emul.c: initialize the
Dallas clock fields and build the magic sequence from the constant
`0x5ca33ac55ca33ac5`. -/
def rtc_postinit_dallas (c : DallasClock) (romAddr : Nat) : DallasClock :=
  populateMagicSequence
    { c with
      last_magic_found := 0, retries := 0,
      magic_sequence_hex := 0x5ca33ac55ca33ac5,
      read_address_bit := 0x9, write_address_bit_zero := 0x1,
      write_address_bit_one := 0x3,
      size_magic_sequence := 66, size_clock_sequence := 64,
      rom_address := romAddr }
    0x5ca33ac55ca33ac5

/-! ## Ordering of the observable actions of `rtc_loop`

`rtc_loop_trace` records, in source order, the operations the body of
`rtc_loop` performs on the shared staging state: reading the frame token,
interpreting the staged command (the `switch`), writing the token fields
back, and the final unconditional `lastProtocolValid = false;`. -/

inductive RtcAction where
  | readToken
  | interpret
  | writeTokens
  | clearFlag
deriving DecidableEq, Repr

def rtc_loop_trace (s : RtcState) : List RtcAction :=
  if s.lastProtocolValid = true then
    [RtcAction.readToken, RtcAction.interpret] ++
      (if s.memoryRandomTokenAddress ≠ 0 then [RtcAction.writeTokens] else []) ++
      [RtcAction.clearFlag]
  else [RtcAction.clearFlag]

/-- `rtc_loop` when the DMA interrupt stages a new frame
(`handle_protocol_command` runs) after the staged command has been
handled but before the final `lastProtocolValid = false;` statement of
`rtc_loop` executes. -/
def rtc_loop_lateIrq (randVal maxPayload : Nat) (irqFrame : TransmissionProtocol)
    (s : RtcState) : RtcState :=
  let s1 := rtc_loop_process randVal s
  let s2 := handle_protocol_command maxPayload irqFrame s1
  { s2 with lastProtocolValid := false }

/-! ## Concrete sample states -/

def bcdZero : Bcd8 := ⟨0, 0, 0, 0, 0, 0, 0, 0⟩

def clockZero : ClockTime := ⟨0, 0, 0, 0, 0, 0, 0⟩

/-- A shared-memory snapshot as it looks during normal runtime after
`rtc_postinit` with the Y2K patch enabled. -/
def sharedSample : SharedMem :=
  { randomToken := 0xAABBCCDD, randomTokenSeed := 0x01020304, ntpSuccess := 0xFFFFFFFF,
    datetimeBcd := bcdZero, datetimeMsdos := 0, oldXbiosTrap := 0,
    reentryTrap := 0, y2kPatch := 0xFFFFFFFF, sharedVariables := fun _ => 0 }

/-- A staged frame with an unrecognized command code whose payload token
equals the RandomToken currently stored in `sharedSample`. -/
def frameUnknownCmd : TransmissionProtocol :=
  { command_id := 0x0399, payload_size := 4, bytes_read := 2,
    final_checksum := 0x1234, payload := [0xAA, 0xBB, 0xCC, 0xDD] }

def stateEcho : RtcState :=
  { lastProtocol := frameUnknownCmd, lastProtocolValid := true,
    shared := sharedSample, memoryRandomTokenAddress := 0xF000,
    y2kPatchEnabled := true, rtcTime := clockZero }

/-- C1 counterexample.  The claim says RandomToken is regenerated from a
pseudo-random source after every command and always differs from its
previous value.  `rtc_loop` instead writes back the token read from the
frame's payload: for a staged frame (here with an unrecognized command
code) whose payload token equals the currently stored RandomToken, the
RandomToken value after processing is unchanged. -/
theorem rtc_loop_random_token_can_repeat :
    stateEcho.lastProtocolValid = true ∧
      stateEcho.memoryRandomTokenAddress ≠ 0 ∧
      (rtc_loop 42 stateEcho).shared.randomToken = stateEcho.shared.randomToken := by
  decide

/-- C1 (amended).  After `rtc_loop` handles a staged frame (any command
code, recognized or not) and the token base address is set, the
RandomToken field is written with the token read from the frame's first
four payload bytes and the RandomTokenSeed field with the fresh `rand()`
value; consequently RandomToken differs from its previous value exactly
when the frame's token does. -/
theorem rtc_loop_token_echo_and_seed_refresh (rv : Nat) (s : RtcState)
    (hv : s.lastProtocolValid = true) (ha : s.memoryRandomTokenAddress ≠ 0) :
    (rtc_loop rv s).shared.randomToken = tproto_getRandomToken s.lastProtocol.payload ∧
      (rtc_loop rv s).shared.randomTokenSeed = rv ∧
      ((rtc_loop rv s).shared.randomToken ≠ s.shared.randomToken ↔
        tproto_getRandomToken s.lastProtocol.payload ≠ s.shared.randomToken) := by
  have h : (rtc_loop rv s).shared.randomToken =
        tproto_getRandomToken s.lastProtocol.payload ∧
      (rtc_loop rv s).shared.randomTokenSeed = rv := by
    simp only [rtc_loop, rtc_loop_process, hv, ha, ne_eq, not_false_eq_true,
      if_true, ite_true]
    exact ⟨trivial, trivial⟩
  exact ⟨h.1, h.2, by rw [h.1]⟩

/-- Witness for `rtc_loop_token_echo_and_seed_refresh` at `stateEcho`. -/
theorem rtc_loop_token_echo_and_seed_refresh_witness :
    (rtc_loop 7 stateEcho).shared.randomToken =
        tproto_getRandomToken stateEcho.lastProtocol.payload ∧
      (rtc_loop 7 stateEcho).shared.randomTokenSeed = 7 :=
  ⟨(rtc_loop_token_echo_and_seed_refresh 7 stateEcho (by decide) (by decide)).1,
    (rtc_loop_token_echo_and_seed_refresh 7 stateEcho (by decide) (by decide)).2.1⟩

/-- A staged REENTRY_LOCK frame carrying a fresh token. -/
def frameLock : TransmissionProtocol :=
  { command_id := RTCEMUL_REENTRY_LOCK, payload_size := 4, bytes_read := 2,
    final_checksum := 0x4242, payload := [0x01, 0x02, 0x03, 0x04] }

def stateLock : RtcState :=
  { lastProtocol := frameLock, lastProtocolValid := true,
    shared := sharedSample, memoryRandomTokenAddress := 0xF000,
    y2kPatchEnabled := true, rtcTime := clockZero }

/-- C2.  After `rtc_loop` processes a staged frame (with the token base
address set, as `rtc_preinit` guarantees), the RandomToken shared-memory
field equals the 32-bit token read from the frame's first four payload
bytes — the engine echoes the host-supplied token — and only the
RandomTokenSeed field receives the freshly generated `rand()` value. -/
theorem rtc_loop_echoes_frame_token (rv : Nat) (s : RtcState)
    (hv : s.lastProtocolValid = true) (ha : s.memoryRandomTokenAddress ≠ 0) :
    (rtc_loop rv s).shared.randomToken = tproto_getRandomToken s.lastProtocol.payload ∧
      (rtc_loop rv s).shared.randomTokenSeed = rv := by
  simp only [rtc_loop, rtc_loop_process, hv, ha, ne_eq, not_false_eq_true,
    if_true, ite_true]
  exact ⟨trivial, trivial⟩

/-- Witness for `rtc_loop_echoes_frame_token` at `stateLock`. -/
theorem rtc_loop_echoes_frame_token_witness :
    (rtc_loop 99 stateLock).shared.randomToken =
        tproto_getRandomToken stateLock.lastProtocol.payload ∧
      (rtc_loop 99 stateLock).shared.randomTokenSeed = 99 :=
  rtc_loop_echoes_frame_token 99 stateLock (by decide) (by decide)

/-- A staged READ_TIME frame. -/
def frameReadTime : TransmissionProtocol :=
  { command_id := RTCEMUL_READ_TIME, payload_size := 4, bytes_read := 2,
    final_checksum := 0x1111, payload := [0x11, 0x22, 0x33, 0x44] }

/-- Two-digit year 5 (calendar year 2005). -/
def clock2005 : ClockTime := ⟨2005, 3, 15, 10, 30, 20, 2⟩

def stateReadTime : RtcState :=
  { lastProtocol := frameReadTime, lastProtocolValid := true,
    shared := sharedSample, memoryRandomTokenAddress := 0xF000,
    y2kPatchEnabled := true, rtcTime := clock2005 }

/-- C3 counterexample.  With the Y2K patch enabled and two-digit year 5,
READ_TIME stores the BCD year `add_bcd (to_bcd 5) (to_bcd 70) = 0x75`
(the source adds `(2000 - 1980) + (80 - 30) = 70`), not the claimed
`add_bcd (to_bcd 5) (to_bcd 50) = 0x55`. -/
theorem read_time_y2k_offset_not_fifty :
    stateReadTime.y2kPatchEnabled = true ∧
      stateReadTime.rtcTime.year % 100 = 5 ∧
      (rtc_loop 3 stateReadTime).shared.datetimeBcd.b0 = 0x75 ∧
      add_bcd (to_bcd 5) (to_bcd 50) = 0x55 ∧
      (rtc_loop 3 stateReadTime).shared.datetimeBcd.b0 ≠ add_bcd (to_bcd 5) (to_bcd 50) := by
  decide

/-- For a staged READ_TIME frame, the BCD record and Y2K flag after
`rtc_loop` are those produced by `set_ikb_datetime_msg` (the trailing
token write does not touch them). -/
theorem rtc_loop_read_time_shared (rv : Nat) (s : RtcState)
    (hv : s.lastProtocolValid = true)
    (hc : s.lastProtocol.command_id = RTCEMUL_READ_TIME) :
    (rtc_loop rv s).shared.datetimeBcd =
        (set_ikb_datetime_msg s.shared s.rtcTime
          (s.shared.sharedVariables SHARED_VARIABLE_SVERSION % 65536)
          s.y2kPatchEnabled).datetimeBcd ∧
      (rtc_loop rv s).shared.y2kPatch =
        (set_ikb_datetime_msg s.shared s.rtcTime
          (s.shared.sharedVariables SHARED_VARIABLE_SVERSION % 65536)
          s.y2kPatchEnabled).y2kPatch := by
  by_cases haddr : s.memoryRandomTokenAddress ≠ 0 <;>
    simp [rtc_loop, rtc_loop_process, hv, hc, haddr]

/-- The BCD year byte written by `set_ikb_datetime_msg` with the Y2K
patch on and two-digit year 5, and the untouched Y2K flag. -/
theorem set_ikb_y2k_on_year5 (sh : SharedMem) (t : ClockTime) (g : Nat)
    (h5 : t.year % 100 = 5) :
    (set_ikb_datetime_msg sh t g true).datetimeBcd.b0 =
        add_bcd (to_bcd 5) (to_bcd 70) ∧
      (set_ikb_datetime_msg sh t g true).y2kPatch = sh.y2kPatch := by
  have hfix : 0 ≤ (g : Int) ∧ (true : Bool) = true := ⟨Int.natCast_nonneg g, rfl⟩
  simp only [set_ikb_datetime_msg, if_pos hfix]
  refine ⟨?_, rfl⟩
  rw [h5]
  norm_num

/-- C3 (amended).  When the Y2K patch is enabled (so `rtc_postinit` has
set the shared Y2K flag nonzero), processing READ_TIME for a ClockState
whose two-digit year is 5 stores the BCD year
`add_bcd (to_bcd 5) (to_bcd 70))` — the fixed compensation the source
adds is `(2000 - 1980) + (80 - 30) = 70` BCD years, not 50 — and the
Y2kPatch flag in shared memory stays nonzero. -/
theorem read_time_y2k_applies_seventy (rv : Nat) (s : RtcState)
    (hv : s.lastProtocolValid = true)
    (hc : s.lastProtocol.command_id = RTCEMUL_READ_TIME)
    (hy : s.y2kPatchEnabled = true)
    (hf : s.shared.y2kPatch ≠ 0)
    (h5 : s.rtcTime.year % 100 = 5) :
    (rtc_loop rv s).shared.datetimeBcd.b0 = add_bcd (to_bcd 5) (to_bcd 70) ∧
      (rtc_loop rv s).shared.y2kPatch ≠ 0 := by
  obtain ⟨hb, hy2⟩ := rtc_loop_read_time_shared rv s hv hc
  rw [hy] at hb hy2
  obtain ⟨kb, kf⟩ := set_ikb_y2k_on_year5 s.shared s.rtcTime
    (s.shared.sharedVariables SHARED_VARIABLE_SVERSION % 65536) h5
  constructor
  · rw [congrArg Bcd8.b0 hb, kb]
  · rw [hy2, kf]
    exact hf

/-- Witness for `read_time_y2k_applies_seventy` at `stateReadTime`. -/
theorem read_time_y2k_applies_seventy_witness :
    (rtc_loop 3 stateReadTime).shared.datetimeBcd.b0 =
        add_bcd (to_bcd 5) (to_bcd 70) ∧
      (rtc_loop 3 stateReadTime).shared.y2kPatch ≠ 0 :=
  read_time_y2k_applies_seventy 3 stateReadTime (by decide) (by decide)
    (by decide) (by decide) (by decide)

/-- The conditions under which `ntpRecvCB` processes (rather than
discards) a datagram, read off the source's validation chain: exact
48-byte length, source address equal to the resolved server address,
source port equal to the *default* NTP port constant 123, mode 4 and
nonzero stratum. -/
def ntpResponseAccepted (st : QueryState) (pkt : NtpPacket) (addr port : Nat) : Prop :=
  pkt.tot_len = NTP_MSG_LEN ∧ addr = st.netTime.ntp_ipaddr ∧
    port = NTP_DEFAULT_PORT ∧ pkt.bytes 0 &&& 0x07 = 4 ∧ pkt.bytes 1 ≠ 0

instance (st : QueryState) (pkt : NtpPacket) (addr port : Nat) :
    Decidable (ntpResponseAccepted st pkt addr port) := by
  unfold ntpResponseAccepted
  infer_instance

/-- C4 (amended).  The NTP receive handler leaves the whole state
(ClockState and the hardware RTC included) unchanged for a NULL buffer
and for every datagram that fails any of: length 48, source address equal
to the resolved server, source port equal to the default NTP port 123
(the source compares against `NTP_DEFAULT_PORT`, not against the
configured server port), mode 4, nonzero stratum — in particular a
stratum-0 response causes no ClockState change. -/
theorem ntpRecvCB_discard_conditions (gmtime : Nat → Option Tm)
    (st : QueryState) (addr port : Nat) :
    ntpRecvCB gmtime st none addr port = st ∧
      ∀ pkt : NtpPacket, ¬ ntpResponseAccepted st pkt addr port →
        ntpRecvCB gmtime st (some pkt) addr port = st := by
  refine ⟨rfl, ?_⟩
  intro pkt h
  by_cases h1 : pkt.tot_len ≠ NTP_MSG_LEN
  · simp [ntpRecvCB, h1]
  push_neg at h1
  by_cases h2 : ¬(addr = st.netTime.ntp_ipaddr) ∨ port ≠ NTP_DEFAULT_PORT
  · simp [ntpRecvCB, h1, h2]
  push_neg at h2
  by_cases h3 : pkt.bytes 0 &&& 0x07 ≠ 4 ∨ pkt.bytes 1 = 0
  · simp [ntpRecvCB, h1, h2.1, h2.2, h3]
  · exfalso
    push_neg at h3
    exact h ⟨h1, h2.1, h2.2, h3.1, h3.2⟩

/-- `gmtime` instance committing calendar year 2025. -/
def gmtime2025 : Nat → Option Tm := fun _ => some ⟨125, 9, 12, 0, 0, 0, 0⟩

/-- A well-formed mode-4, stratum-2 NTP server response. -/
def pktValid : NtpPacket :=
  { tot_len := 48, bytes := fun i => if i = 0 then 0x24 else if i = 1 then 2 else 0 }

/-- A session whose NTP server resolved to address 7 with configured
(non-default) server port 1000. -/
def stNonDefaultPort : QueryState :=
  { netTime := { ntp_ipaddr := 7, ntp_server_found := false, ntp_error := false },
    rtcTime := clockZero, dnsQueryDone := true, ntpServerPort := 1000,
    utcOffsetSeconds := 0 }

/-- C4 counterexample.  A 48-byte mode-4, stratum-2 response arriving
from the resolved server's address and the resolved server's configured
port (1000) satisfies every condition of the claim, yet `ntpRecvCB`
discards it unchanged, because the source compares the source port with
the constant `NTP_DEFAULT_PORT` (123); the same datagram from source
port 123 is processed and changes ClockState. -/
theorem ntpRecvCB_port_check_uses_default_port :
    pktValid.tot_len = 48 ∧
      (7 : Nat) = stNonDefaultPort.netTime.ntp_ipaddr ∧
      (1000 : Nat) = stNonDefaultPort.ntpServerPort ∧
      pktValid.bytes 0 &&& 0x07 = 4 ∧
      pktValid.bytes 1 ≠ 0 ∧
      ntpRecvCB gmtime2025 stNonDefaultPort (some pktValid) 7 1000 = stNonDefaultPort ∧
      (ntpRecvCB gmtime2025 stNonDefaultPort (some pktValid) 7 123).rtcTime.year = 2025 := by
  decide

/-- A stratum-0 response from the resolved server at the default port. -/
def pktStratum0 : NtpPacket :=
  { tot_len := 48, bytes := fun i => if i = 0 then 0x24 else 0 }

def stDefaultPort : QueryState :=
  { netTime := { ntp_ipaddr := 9, ntp_server_found := false, ntp_error := false },
    rtcTime := clockZero, dnsQueryDone := true, ntpServerPort := 123,
    utcOffsetSeconds := 3600 }

/-- Witness for `ntpRecvCB_discard_conditions`: a stratum-0 response is
discarded with no state change. -/
theorem ntpRecvCB_discard_conditions_witness :
    ntpRecvCB gmtime2025 stDefaultPort (some pktStratum0) 9 123 = stDefaultPort :=
  (ntpRecvCB_discard_conditions gmtime2025 stDefaultPort 9 123).2 pktStratum0 (by decide)

/-- C5.  A frame whose checksum does not match the checksum function of
header and payload is dropped by the parse dispatch with no state
mutation at all: the shared memory, the staged frame and the frame-ready
flag are exactly as before (`handle_protocol_checksum_error` only logs). -/
theorem checksum_mismatch_drops_frame (chk : TransmissionProtocol → Nat)
    (maxPayload : Nat) (p : TransmissionProtocol) (s : RtcState)
    (h : p.final_checksum ≠ chk p) :
    tprotocol_parse chk maxPayload p s = s := by
  unfold tprotocol_parse handle_protocol_checksum_error
  rw [if_neg h]

/-- A frame whose stored checksum (3) differs from the checksum function
used below (constantly 7). -/
def frameBadChecksum : TransmissionProtocol :=
  { command_id := RTCEMUL_REENTRY_UNLOCK, payload_size := 4, bytes_read := 2,
    final_checksum := 3, payload := [5, 6, 7, 8] }

/-- Witness for `checksum_mismatch_drops_frame`. -/
theorem checksum_mismatch_drops_frame_witness :
    tprotocol_parse (fun _ => 7) 2048 frameBadChecksum stateLock = stateLock :=
  checksum_mismatch_drops_frame (fun _ => 7) 2048 frameBadChecksum stateLock (by decide)

/-- C6.  `handle_protocol_command` clamps the frame's payload size to the
staging capacity before the copy: the clamp never exceeds the capacity,
the staging buffer receives exactly the clamped prefix of the incoming
payload (older staged bytes beyond it are untouched), the copied byte
count is at most the capacity whatever the (possibly corrupted) length
field says, and the function always succeeds, raising the ready flag. -/
theorem handle_protocol_command_clamps (maxPayload : Nat)
    (p : TransmissionProtocol) (s : RtcState) :
    clampedSize maxPayload p ≤ maxPayload ∧
      (handle_protocol_command maxPayload p s).lastProtocol.payload =
        p.payload.take (clampedSize maxPayload p) ++
          s.lastProtocol.payload.drop (clampedSize maxPayload p) ∧
      (p.payload.take (clampedSize maxPayload p)).length ≤ maxPayload ∧
      (handle_protocol_command maxPayload p s).lastProtocolValid = true := by
  have h1 : clampedSize maxPayload p ≤ maxPayload := by
    unfold clampedSize
    split <;> omega
  refine ⟨h1, rfl, ?_, rfl⟩
  calc (p.payload.take (clampedSize maxPayload p)).length
      = min (clampedSize maxPayload p) p.payload.length := List.length_take _ _
    _ ≤ clampedSize maxPayload p := min_le_left _ _
    _ ≤ maxPayload := h1

/-- The DNS resolution callback never touches the clock. -/
theorem hostFoundCB_rtcTime (st : QueryState) (nameNull : Bool) (ip : Option Nat) :
    (hostFoundCB st nameNull ip).rtcTime = st.rtcTime := by
  unfold hostFoundCB
  split
  · rfl
  · split
    · split
      · rfl
      · rfl
    · rfl

/-- Folding DNS-only callbacks never touches the clock. -/
theorem foldl_hostFound_rtcTime (gmtime : Nat → Option Tm) (evs : List NetEvent)
    (st : QueryState) (h : ∀ e ∈ evs, e.isHostFound = true) :
    (evs.foldl (applyNetEvent gmtime) st).rtcTime = st.rtcTime := by
  induction evs generalizing st with
  | nil => rfl
  | cons e rest ih =>
    have hr : ∀ e' ∈ rest, e'.isHostFound = true :=
      fun e' hm => h e' (List.mem_cons_of_mem _ hm)
    rw [List.foldl_cons, ih _ hr]
    cases e with
    | hostFound nameNull ip => exact hostFoundCB_rtcTime st nameNull ip
    | recv p a prt =>
      have he := h _ (List.mem_cons_self _ rest)
      simp [NetEvent.isHostFound] at he

/-- A polling slot that delivers only DNS callbacks never touches the
clock. -/
theorem ntpIter_hostFound_rtcTime (gmtime : Nat → Option Tm)
    (it : List NetEvent × List NetEvent) (st : QueryState)
    (h1 : ∀ e ∈ it.1, e.isHostFound = true)
    (h2 : ∀ e ∈ it.2, e.isHostFound = true) :
    (ntpIter gmtime it st).rtcTime = st.rtcTime := by
  have hA : ∀ s' : QueryState,
      (it.1.foldl (applyNetEvent gmtime) s').rtcTime = s'.rtcTime :=
    fun s' => foldl_hostFound_rtcTime gmtime it.1 s' h1
  have hB : ∀ s' : QueryState,
      (it.2.foldl (applyNetEvent gmtime) s').rtcTime = s'.rtcTime :=
    fun s' => foldl_hostFound_rtcTime gmtime it.2 s' h2
  simp only [ntpIter]
  split_ifs <;> simp [hA, hB]

/-- The polling loop over DNS-only slots never touches the clock. -/
theorem ntpLoop_hostFound_rtcTime (gmtime : Nat → Option Tm)
    (iters : List (List NetEvent × List NetEvent)) (st : QueryState)
    (h : ∀ it ∈ iters, (∀ e ∈ it.1, e.isHostFound = true) ∧
      (∀ e ∈ it.2, e.isHostFound = true)) :
    (ntpLoop gmtime iters st).rtcTime = st.rtcTime := by
  induction iters generalizing st with
  | nil => rfl
  | cons it rest ih =>
    have hit := h it (List.mem_cons_self it rest)
    have hrest : ∀ i ∈ rest, (∀ e ∈ i.1, e.isHostFound = true) ∧
        (∀ e ∈ i.2, e.isHostFound = true) :=
      fun i hm => h i (List.mem_cons_of_mem _ hm)
    unfold ntpLoop
    by_cases hy : st.rtcTime.year = 0
    · rw [if_pos hy, ih _ hrest, ntpIter_hostFound_rtcTime gmtime it st hit.1 hit.2]
    · rw [if_neg hy]

/-- C7.  `rtc_queryNTPTime` returns 0 exactly when the clock's year field
is nonzero when the polling loop stops (the loop runs only within the
deadline), returns -1 with the year still at the sentinel 0 otherwise,
and in particular returns -1 whenever the clock starts unset and the
network delivers only DNS callbacks (e.g. DNS never resolves) within the
whole deadline. -/
theorem rtc_queryNTPTime_success_iff_year_set (gmtime : Nat → Option Tm)
    (iters : List (List NetEvent × List NetEvent)) (st0 : QueryState) :
    ((rtc_queryNTPTime gmtime iters st0).1 = 0 ↔
        (rtc_queryNTPTime gmtime iters st0).2.rtcTime.year ≠ 0) ∧
      ((rtc_queryNTPTime gmtime iters st0).1 ≠ 0 →
        (rtc_queryNTPTime gmtime iters st0).2.rtcTime.year = 0) ∧
      (st0.rtcTime.year = 0 →
        (∀ it ∈ iters, (∀ e ∈ it.1, e.isHostFound = true) ∧
          (∀ e ∈ it.2, e.isHostFound = true)) →
        (rtc_queryNTPTime gmtime iters st0).1 = -1) := by
  by_cases hy : (ntpLoop gmtime iters (ntpQueryInit st0)).rtcTime.year ≠ 0
  · have hpair : rtc_queryNTPTime gmtime iters st0 =
        (0, ntpLoop gmtime iters (ntpQueryInit st0)) := by
      simp only [rtc_queryNTPTime, if_pos hy]
    rw [hpair]
    refine ⟨iff_of_true rfl hy, fun h0 => absurd rfl h0, fun h00 hall => ?_⟩
    exact absurd (by rw [ntpLoop_hostFound_rtcTime gmtime iters _ hall]; exact h00) hy
  · have hpair : rtc_queryNTPTime gmtime iters st0 =
        (-1, ntpLoop gmtime iters (ntpQueryInit st0)) := by
      simp only [rtc_queryNTPTime, if_neg hy]
    rw [hpair]
    push_neg at hy
    exact ⟨iff_of_false (by norm_num) (fun hne => hne hy), fun _ => hy, fun _ _ => rfl⟩

/-- Two polling slots in which DNS resolution keeps failing. -/
def itersDnsFail : List (List NetEvent × List NetEvent) :=
  [([], [NetEvent.hostFound false none]), ([NetEvent.hostFound false none], [])]

def stQuery0 : QueryState :=
  { netTime := { ntp_ipaddr := 0, ntp_server_found := false, ntp_error := false },
    rtcTime := clockZero, dnsQueryDone := false, ntpServerPort := 123,
    utcOffsetSeconds := 0 }

/-- Witness for `rtc_queryNTPTime_success_iff_year_set`: DNS never
resolves, so acquisition fails. -/
theorem rtc_queryNTPTime_success_iff_year_set_witness :
    (rtc_queryNTPTime gmtime2025 itersDnsFail stQuery0).1 = -1 :=
  (rtc_queryNTPTime_success_iff_year_set gmtime2025 itersDnsFail stQuery0).2.2
    (by decide) (by decide)

/-- C9 counterexample.  For a concrete state with a staged frame, the
trace of `rtc_loop` does *not* clear the frame-ready flag before
interpreting the staged command (the unconditional clear is the last
statement of the function), and a second frame staged by the interrupt
after command handling but before that final clear is lost: the ready
flag ends up false, so the frame is not kept for the next pass. -/
theorem rtc_loop_clear_not_before_interpret :
    stateLock.lastProtocolValid = true ∧
      ¬ ((rtc_loop_trace stateLock).indexOf RtcAction.clearFlag <
          (rtc_loop_trace stateLock).indexOf RtcAction.interpret) ∧
      (rtc_loop_lateIrq 7 2048 frameReadTime stateLock).lastProtocolValid = false := by
  decide

/-- C9 (amended).  In every pass of `rtc_loop` over a staged frame the
flag clear comes *after* command interpretation — it is the last action
of the pass — and therefore a frame staged by the interrupt handler
while the first is being processed is dropped (the ready flag is false
after the pass), not kept for the next pass. -/
theorem rtc_loop_clear_is_last (s : RtcState) (hv : s.lastProtocolValid = true) :
    (rtc_loop_trace s).indexOf RtcAction.interpret <
        (rtc_loop_trace s).indexOf RtcAction.clearFlag ∧
      (rtc_loop_trace s).indexOf RtcAction.clearFlag =
        (rtc_loop_trace s).length - 1 ∧
      ∀ rv maxPayload : Nat, ∀ irqFrame : TransmissionProtocol,
        (rtc_loop_lateIrq rv maxPayload irqFrame s).lastProtocolValid = false := by
  refine ⟨?_, ?_, fun rv maxPayload irqFrame => rfl⟩ <;>
  · unfold rtc_loop_trace
    rw [if_pos hv]
    by_cases ha : s.memoryRandomTokenAddress ≠ 0
    · rw [if_pos ha]
      decide
    · rw [if_neg ha]
      decide

/-- Witness for `rtc_loop_clear_is_last` at `stateReadTime`. -/
theorem rtc_loop_clear_is_last_witness :
    (rtc_loop_trace stateReadTime).indexOf RtcAction.interpret <
        (rtc_loop_trace stateReadTime).indexOf RtcAction.clearFlag ∧
      (rtc_loop_lateIrq 1 2048 frameLock stateReadTime).lastProtocolValid = false :=
  ⟨(rtc_loop_clear_is_last stateReadTime (by decide)).1,
    (rtc_loop_clear_is_last stateReadTime (by decide)).2.2 1 2048 frameLock⟩

/-- The zero-initialized `DallasClock` static (`= {0}` in emul.c). -/
def dallasZero : DallasClock :=
  { last_magic_found := 0, retries := 0, magic_sequence_hex := 0,
    clock_sequence := fun _ => 0, read_address_bit := 0,
    write_address_bit_zero := 0, write_address_bit_one := 0,
    magic_sequence := fun _ => 0, size_magic_sequence := 0,
    size_clock_sequence := 0, rom_address := 0 }

/-- C10.  The Dallas-branch of `rtc_postinit` builds the 66-element magic
sequence once: elements 0 and 1 are left unchanged and, for every index
`i` from 2 to 65, element `i` holds the write-one encoding 0x3 when bit
`i - 2` of the magic constant `0x5ca33ac55ca33ac5` is 1 and the
write-zero encoding 0x1 otherwise. -/
theorem populateMagicSequence_postinit_spec (c : DallasClock) (romAddr : Nat) :
    (∀ i : Fin 66, i.val < 2 →
        (rtc_postinit_dallas c romAddr).magic_sequence i = c.magic_sequence i) ∧
      ∀ i : Fin 66, 2 ≤ i.val →
        (rtc_postinit_dallas c romAddr).magic_sequence i =
          if (0x5ca33ac55ca33ac5 >>> (i.val - 2)) &&& 1 = 1 then 0x3 else 0x1 := by
  constructor
  · intro i hi
    simp only [rtc_postinit_dallas, populateMagicSequence]
    rw [if_neg (by omega)]
  · intro i hi
    simp only [rtc_postinit_dallas, populateMagicSequence]
    rw [if_pos hi]

/-- Witness for `populateMagicSequence_postinit_spec` at the
zero-initialized clock: element 0 is untouched and element 2 encodes bit
0 of the constant (a 1-bit, hence 0x3). -/
theorem populateMagicSequence_postinit_spec_witness :
    (rtc_postinit_dallas dallasZero 0).magic_sequence ⟨0, by norm_num⟩ =
        dallasZero.magic_sequence ⟨0, by norm_num⟩ ∧
      (rtc_postinit_dallas dallasZero 0).magic_sequence ⟨2, by norm_num⟩ = 0x3 := by
  constructor
  · exact (populateMagicSequence_postinit_spec dallasZero 0).1 ⟨0, by norm_num⟩
      (by norm_num)
  · have h := (populateMagicSequence_postinit_spec dallasZero 0).2 ⟨2, by norm_num⟩
      (by norm_num)
    rw [h]
    decide

end RtcEmul
